import Mathlib

/-!
Verification of the process-supervisor specification against
`src/packages/tauri-app/src-tauri/src/cli_manager.rs`.

Strings from the Rust code are embedded as `List Char` (the character
sequence of a Rust `String`/`&str`).  Machine integers (`u16`, `u64`,
`u32`) are embedded as `Nat` with explicit `% 2 ^ w` at the places the
Rust code performs a truncating `as` cast.  Fallible Rust functions are
embedded with `Option`/`Except`.
-/

/-- `CliState` from cli_manager.rs (lines 107-114). -/
inductive CliState
  | Starting
  | Ready
  | Error
  | Stopped
deriving DecidableEq, Repr

/-- `CliStatus` from cli_manager.rs (lines 116-123).  `pid : Option u32`,
`port : Option u16` are embedded as `Option Nat`; the `String` fields as
`Option (List Char)`. -/
structure CliStatus where
  state : CliState
  pid : Option Nat
  port : Option Nat
  url : Option (List Char)
  error : Option (List Char)
deriving DecidableEq, Repr

/-- The shared supervision state: the lock-protected `CliStatus`, the
`ready : AtomicBool` flag, whether the `child : Mutex<Option<Child>>`
slot currently holds a child handle, whether the current run's exit
watcher thread (spawned at lines 365-399) has already performed its
one-shot status update (`exited = true` once it has run; initially there
is no watcher, modelled as `exited = true`), and whether a readiness
timer thread has loaded the ready flag as unset (line 349) but not yet
acquired the status lock for its error update (line 352) — the load and
the update are separate program steps, so other workers may interleave
between them (`timerPending = true` in that window). -/
structure SupState where
  status : CliStatus
  ready : Bool
  child : Bool
  exited : Bool
  timerPending : Bool
deriving DecidableEq, Repr

/-- `CliStatus::default()` (lines 125-135): `Stopped` with every field
`None`; initially no child, no exit watcher and no timer past its flag
check. -/
def initState : SupState :=
  ⟨⟨CliState.Stopped, none, none, none, none⟩, false, false, true, false⟩

/-- The character class tested by `shell_escape` (line 675):
`' ' | '"' | '\'' | '$' | '`' | '!'`. -/
def isSpecialChar (c : Char) : Bool :=
  c = ' ' || c = '"' || c = '\'' || c = '$' || c = '`' || c = '!'

/-- `input.replace('\'', "'\\''")` (line 679): every single quote becomes
the four characters `'\''`; all other characters are kept. -/
def escapeChars : List Char → List Char
  | [] => []
  | c :: cs => (if c = '\'' then ['\'', '\\', '\'', '\''] else [c]) ++ escapeChars cs

/-- `shell_escape` (lines 670-682): empty input becomes `''`; input with
no character of `isSpecialChar` passes through unchanged; otherwise the
input is wrapped in single quotes with embedded quotes escaped by
`escapeChars`. -/
def shellEscape (input : List Char) : List Char :=
  if input = [] then ['\'', '\'']
  else if input.any isSpecialChar = false then input
  else '\'' :: (escapeChars input ++ ['\''])

/-- Quoting mode of the POSIX shell word recognizer: outside quotes,
inside single quotes, inside double quotes, or right after an unquoted
backslash (the next character is taken literally). -/
inductive QMode
  | norm
  | sgl
  | dbl
  | esc
deriving DecidableEq

/-- Model of POSIX shell token recognition and quote removal, used to
state the round-trip property of `shell_escape`.  `shellWords m cs
started acc` scans `cs` in quoting mode `m` with `acc` the (reversed)
characters of the current field and `started` recording whether the
current field exists (a quoted empty string yields a field).  Characters
that would trigger shell expansion or continuation outside single quotes
(`$`, a backquote, a trailing backslash, and `$`/backquote/backslash
inside double quotes) are outside the modelled fragment and yield
`none`, as do unterminated quotes. -/
def shellWords : QMode → List Char → Bool → List Char → Option (List (List Char))
  | QMode.norm, [], started, acc =>
      if started then some [acc.reverse] else some []
  | QMode.sgl, [], _, _ => none
  | QMode.dbl, [], _, _ => none
  | QMode.esc, [], _, _ => none
  | QMode.norm, c :: rest, started, acc =>
      if c = ' ' then
        if started then (shellWords QMode.norm rest false []).map (fun ws => acc.reverse :: ws)
        else shellWords QMode.norm rest false []
      else if c = '\'' then shellWords QMode.sgl rest true acc
      else if c = '"' then shellWords QMode.dbl rest true acc
      else if c = '\\' then shellWords QMode.esc rest true acc
      else if c = '$' then none
      else if c = '`' then none
      else shellWords QMode.norm rest true (c :: acc)
  | QMode.esc, c :: rest, _, acc => shellWords QMode.norm rest true (c :: acc)
  | QMode.sgl, c :: rest, _, acc =>
      if c = '\'' then shellWords QMode.norm rest true acc
      else shellWords QMode.sgl rest true (c :: acc)
  | QMode.dbl, c :: rest, _, acc =>
      if c = '"' then shellWords QMode.norm rest true acc
      else if c = '$' then none
      else if c = '`' then none
      else if c = '\\' then none
      else shellWords QMode.dbl rest true (c :: acc)

/-- Split a character sequence into the fields a POSIX shell would
produce after tokenization and quote removal. -/
def shellSplit (cs : List Char) : Option (List (List Char)) :=
  shellWords QMode.norm cs false []

example : shellEscape "abc".data = "abc".data := by decide
example : shellEscape [] = ['\'', '\''] := by decide
example : shellSplit (shellEscape "a' $b".data) = some ["a' $b".data] := by decide
example : shellEscape [';'] = [';'] := by decide

/-- ASCII decimal digit, the characters matched by `\d` in the regexes
and accepted by `str::parse::<u16>` (the monitored lines are ASCII). -/
def isDig (c : Char) : Bool :=
  48 ≤ c.toNat && c.toNat ≤ 57

/-- Value of a decimal digit string (most significant digit first). -/
def digitsToNat (ds : List Char) : Nat :=
  ds.foldl (fun n c => n * 10 + (c.toNat - 48)) 0

/-- `m.as_str().parse::<u16>().ok()` applied to a captured digit group
(lines 431 and 441): succeeds exactly when the digits denote a value
that fits in `u16`, i.e. is at most 65535. -/
def parseU16 (ds : List Char) : Option Nat :=
  if ds = [] then none
  else if ds.all isDig = false then none
  else if digitsToNat ds ≤ 65535 then some (digitsToNat ds)
  else none

/-- Consume an expected literal character sequence from the front of the
input, returning the remainder on success. -/
def dropLit : List Char → List Char → Option (List Char)
  | [], cs => some cs
  | _ :: _, [] => none
  | l :: ls, c :: cs => if c = l then dropLit ls cs else none

/-- The literal part of `port_regex` (line 412):
`CodeNomad Server is ready at http://` before the `[^:]+:(\d+)` tail. -/
def readyLit : List Char := "CodeNomad Server is ready at http://".data

/-- Attempt to match `port_regex` = `CodeNomad Server is ready at
http://[^:]+:(\d+)` (line 412) anchored at the start of `cs`, returning
the digits captured by group 1.  `[^:]+` is greedy over non-colon
characters, so on success the host is exactly the non-empty run of
characters before the next colon, and the capture is the maximal digit
run after that colon (empty capture means no match here). -/
def matchReadyAt (cs : List Char) : Option (List Char) :=
  match dropLit readyLit cs with
  | none => none
  | some rest =>
    match rest.dropWhile (fun c => !(c = ':')) with
    | ':' :: rest2 =>
      if rest.takeWhile (fun c => !(c = ':')) = [] then none
      else if rest2.takeWhile isDig = [] then none
      else some (rest2.takeWhile isDig)
    | _ => none

/-- Regex search: try the matcher at every start position of the line,
leftmost match wins (the search behaviour of `Regex::captures`). -/
def findMap (f : List Char → Option (List Char)) : List Char → Option (List Char)
  | [] => f []
  | c :: cs =>
    match f (c :: cs) with
    | some r => some r
    | none => findMap f cs

/-- ASCII fragment of `str::to_lowercase` (line 437); the monitored
lines and the pattern `http server listening` are ASCII. -/
def toLowerChar (c : Char) : Char :=
  if 65 ≤ c.toNat ∧ c.toNat ≤ 90 then Char.ofNat (c.toNat + 32) else c

/-- Lowercase a whole line (`line.to_lowercase()`, line 437). -/
def toLowerList : List Char → List Char
  | [] => []
  | c :: cs => toLowerChar c :: toLowerList cs

/-- Whether `pat` is a prefix of `cs`. -/
def startsWithList : List Char → List Char → Bool
  | [], _ => true
  | _ :: _, [] => false
  | p :: ps, c :: cs => p = c && startsWithList ps cs

/-- Substring test (`str::contains`, line 437): some suffix of `hay`
starts with `pat`. -/
def containsSub (hay pat : List Char) : Bool :=
  match hay with
  | [] => pat.isEmpty
  | _ :: rest => startsWithList pat hay || containsSub rest pat

/-- Line 413 of the source constructs
`Regex::new(r":(\d{2,5})(?!.*:\d)").ok()`.  The pattern uses a negative
look-ahead `(?!...)`, which the `regex` crate rejects by design
(look-around is not supported), so `Regex::new` returns `Err` and
`.ok()` yields `None`: `http_regex` is `None` for every run.  The
embedding therefore carries no matcher for this regex. -/
def http_regex_compiled : Option (List Char → Option (List Char)) := none

/-- JSON values in the fragment of `serde_json` exercised by the
monitored lines: strings without escape sequences, unsigned integers
that fit in `u64`, and unsigned integers that overflow `u64` (which
`serde_json` parses as a lossy `f64`, embedded as `jbig` since
`as_u64` returns `None` on them). -/
inductive JVal
  | jstr (s : List Char)
  | jnum (n : Nat)
  | jbig
deriving DecidableEq

/-- Parse a JSON string body after the opening quote (no escape
sequences in the modelled fragment). -/
def parseJStr : List Char → Option (List Char × List Char)
  | [] => none
  | c :: rest =>
    if c = '"' then some ([], rest)
    else if c = '\\' then none
    else (parseJStr rest).map (fun p => (c :: p.1, p.2))

/-- Parse an unsigned JSON integer: a non-empty maximal digit run.
Values above `u64::MAX` are parsed by `serde_json` as a lossy `f64`
(`jbig` here). -/
def parseJNum (cs : List Char) : Option (JVal × List Char) :=
  if cs.takeWhile isDig = [] then none
  else if digitsToNat (cs.takeWhile isDig) < 2 ^ 64 then
    some (JVal.jnum (digitsToNat (cs.takeWhile isDig)), cs.dropWhile isDig)
  else
    some (JVal.jbig, cs.dropWhile isDig)

/-- Parse a JSON value of the modelled fragment: a string or a number. -/
def parseJVal (cs : List Char) : Option (JVal × List Char) :=
  match cs with
  | [] => none
  | c :: rest =>
    if c = '"' then (parseJStr rest).map (fun p => (JVal.jstr p.1, p.2))
    else parseJNum (c :: rest)

/-- Parse the members of a JSON object after the opening brace, fuelled
by an upper bound on the number of members. -/
def parseJMembers : Nat → List Char → Option (List (List Char × JVal) × List Char)
  | 0, _ => none
  | fuel + 1, cs =>
    match cs with
    | '\x7d' :: rest => some ([], rest)
    | '"' :: rest =>
      match parseJStr rest with
      | none => none
      | some (key, r1) =>
        match r1 with
        | ':' :: r2 =>
          match parseJVal r2 with
          | none => none
          | some (v, r3) =>
            match r3 with
            | ',' :: r4 => (parseJMembers fuel r4).map (fun p => ((key, v) :: p.1, p.2))
            | '\x7d' :: r4 => some ([(key, v)], r4)
            | _ => none
        | _ => none
    | _ => none

/-- `serde_json::from_str::<serde_json::Value>` (line 447), on the
modelled fragment: the whole line must be a single JSON object (the
monitored JSON lines have no surrounding whitespace). -/
def serdeFromStr (cs : List Char) : Option (List (List Char × JVal)) :=
  match cs with
  | '\x7b' :: rest =>
    match parseJMembers (rest.length + 1) rest with
    | some (ms, []) => some ms
    | _ => none
  | _ => none

/-- `value.get("port")` (line 448): the value stored under a key (the
monitored lines have distinct keys, so first match suffices). -/
def jsonGet (ms : List (List Char × JVal)) (key : List Char) : Option JVal :=
  match ms with
  | [] => none
  | (k, v) :: rest => if k = key then some v else jsonGet rest key

/-- `Number::as_u64` (line 448): `Some` exactly for integers that were
stored as `u64` (overflowing integers were stored as `f64`). -/
def asU64 : JVal → Option Nat
  | JVal.jnum n => some n
  | _ => none

/-- The numeric `port` field of a line parsed as JSON, as a `u64`
(lines 447-448). -/
def jsonPortU64 (line : List Char) : Option Nat :=
  (serdeFromStr line).bind (fun ms => (jsonGet ms "port".data).bind asU64)

/-- Per-line readiness extraction of `process_stream` (lines 428-453):
first `port_regex` with a `u16` parse of the capture; then, if the
lowercased line contains `http server listening`, the (never-compiled)
`http_regex` with a `u16` parse, and finally the JSON `port` field with
the truncating `as u16` cast (`% 2 ^ 16`).  `none` means the line
declares no readiness. -/
def lineSignal (line : List Char) : Option Nat :=
  match (findMap matchReadyAt line).bind parseU16 with
  | some p => some p
  | none =>
    if containsSub (toLowerList line) "http server listening".data then
      match http_regex_compiled.bind (fun f => (f line).bind parseU16) with
      | some p => some p
      | none =>
        match jsonPortU64 line with
        | some p => some (p % 2 ^ 16)
        | none => none
    else none

example : lineSignal "CodeNomad Server is ready at http://127.0.0.1:4821".data = some 4821 := by decide
example : lineSignal "HTTP server listening on :5050".data = none := by decide
example : lineSignal "\x7b\"msg\":\"http server listening\",\"port\":6000\x7d".data = some 6000 := by decide
example : lineSignal "nothing to see".data = none := by decide

/-- `CliProcessManager::stop` (lines 186-229): take the child handle if
present (signal, poll, kill are side effects on the OS process only),
then unconditionally reset the status to `Stopped` with every transient
field cleared.  `ready`, `exited` and any in-flight timer are not
touched by `stop` (nothing cancels a sleeping or mid-update timer
thread). -/
def applyStop (s : SupState) : SupState :=
  { status := ⟨CliState.Stopped, none, none, none, none⟩
    ready := s.ready
    child := false
    exited := s.exited
    timerPending := s.timerPending }

/-- `stop` including its return value: the body matches every fallible
operation (`try_wait` errors break the poll loop, kill results are
discarded) and ends in `Ok(())`, so the call always returns `Ok`. -/
def stopCall (s : SupState) : SupState × Except (List Char) Unit :=
  (applyStop s, Except.ok ())

/-- The synchronous part of `CliProcessManager::start` (lines 153-165):
`stop()` first, then reset the ready flag, then set the status to
`Starting` with all transient fields cleared.  The new run's exit
watcher has not fired yet (`exited := false`); a previous run's timer
that already passed its flag check is not cancelled (`timerPending`
carries over). -/
def applyStart (s : SupState) : SupState :=
  { applyStop s with
      status := ⟨CliState.Starting, none, none, none, none⟩
      ready := false
      exited := false }

/-- Recording the spawned child (lines 304-315): `pid` is stored in the
status and the child handle is placed in the holder. -/
def applySpawn (s : SupState) (pid : Nat) : SupState :=
  { s with
      status := { s.status with pid := some pid }
      child := true }

/-- `format!("http://127.0.0.1:{port}")` (line 464). -/
def urlFor (p : Nat) : List Char :=
  "http://127.0.0.1:".data ++ (Nat.repr p).data

/-- `mark_ready` (lines 461-473): set the ready flag, then under the
lock set `port`, `url`, `state := Ready` and clear `error`. -/
def applyMarkReady (s : SupState) (port : Nat) : SupState :=
  { s with
      ready := true
      status := { s.status with
        port := some port
        url := some (urlFor port)
        state := CliState.Ready
        error := none } }

/-- The lock-protected part of the readiness-timeout worker
(lines 352-360), performed only after the worker has already loaded the
ready flag as unset at line 349: `state := Error` with the timeout
message, `port`/`url` untouched (the child is killed as a side effect;
the handle stays in the holder).  The flag is not re-checked under the
lock, so this update can run even if `mark_ready` interleaved after the
check. -/
def applyTimeout (s : SupState) : SupState :=
  { s with
      status := { s.status with
        state := CliState.Error
        error := some "CLI did not start in time".data } }

/-- The early-exit message of the exit watcher (lines 377-381), from the
formatted exit status of `child.wait()` when one was obtained. -/
def earlyExitMsg : Option (List Char) → List Char
  | some st => "CLI exited early: ".data ++ st
  | none => "CLI exited early".data

/-- The exit watcher's one-shot status update (lines 365-399): if the
state at that moment is not `Ready`, set `state := Error` and record the
early-exit message only when no error is present; otherwise set
`state := Stopped`.  Neither branch touches `port`, `url` or `pid`. -/
def applyExitWatcher (s : SupState) (code : Option (List Char)) : SupState :=
  if s.status.state = CliState.Ready then
    { s with
        status := { s.status with state := CliState.Stopped }
        exited := true }
  else
    { s with
        status := { s.status with
          state := CliState.Error
          error := if s.status.error = none then some (earlyExitMsg code) else s.status.error }
        exited := true }

/-- `buffer.trim_end()` (line 420) on the ASCII fragment. -/
def trimEndList (l : List Char) : List Char :=
  (l.reverse.dropWhile Char.isWhitespace).reverse

/-- One iteration of the read loop of `process_stream` (lines 415-458)
restricted to its effect on the shared state: skip empty lines, skip
pattern matching once the ready flag is set, otherwise run the ordered
extraction `lineSignal` and call `mark_ready` on success. -/
def stepLine (s : SupState) (buffer : List Char) : SupState :=
  if trimEndList buffer = [] then s
  else if s.ready = true then s
  else
    match lineSignal (trimEndList buffer) with
    | some p => applyMarkReady s p
    | none => s

/-- The status transitions of the supervisor, with the guards the code
enforces: `mark_ready` runs only when the ready flag is unset (checked
at line 424 before any matching) and carries a `u16` port; the exit
watcher reads the state and updates it under one lock acquisition
(lines 375-396) and runs once per run.  The readiness timer is NOT
atomic: it loads the ready flag at line 349 and only afterwards
acquires the status lock at line 352, without re-checking, so its flag
check (`timeoutCheck`, possible only while the flag is unset) and its
error update (`timeoutFire`, possible any time after a check) are
separate transitions between which other workers may interleave. -/
inductive Step : SupState → SupState → Prop
  | start (s : SupState) : Step s (applyStart s)
  | spawn (s : SupState) (pid : Nat) : Step s (applySpawn s pid)
  | markReady (s : SupState) (port : Nat) (h : s.ready = false)
      (hp : port < 2 ^ 16) : Step s (applyMarkReady s port)
  | timeoutCheck (s : SupState) (h : s.ready = false) :
      Step s { s with timerPending := true }
  | timeoutFire (s : SupState) (h : s.timerPending = true) :
      Step s (applyTimeout s)
  | exit (s : SupState) (code : Option (List Char)) (h : s.exited = false) :
      Step s (applyExitWatcher s code)
  | stop (s : SupState) : Step s (applyStop s)

/-- States reachable from the freshly constructed manager. -/
inductive Reachable : SupState → Prop
  | init : Reachable initState
  | step {s t : SupState} : Reachable s → Step s t → Reachable t

/-- `Runner` (lines 510-514). -/
inductive Runner
  | Node
  | Tsx
deriving DecidableEq

/-- `CliEntry` (lines 502-508). -/
structure CliEntrySt where
  entry : List Char
  runner : Runner
  runnerPath : Option (List Char)
  nodeBinary : List Char
deriving DecidableEq

/-- `first_existing` (lines 698-704) over an abstract filesystem
existence predicate `fs`: flatten the candidate list and return the
first path that exists (`normalize_path` only canonicalizes the string
form and is the identity in this embedding). -/
def firstExisting (fs : List Char → Bool) (paths : List (Option (List Char))) :
    Option (List Char) :=
  (paths.filterMap id).find? fs

/-- `resolve_tsx` (lines 579-590): the tsx runner script under the
current directory's `node_modules`, else next to the executable.  `cwd`
models `current_dir().ok()` and `exeParent` models
`current_exe().ok().and_then(parent)`. -/
def resolveTsx (fs : List Char → Bool) (cwd exeParent : Option (List Char)) :
    Option (List Char) :=
  firstExisting fs
    [cwd.map (· ++ "/node_modules/tsx/dist/cli.js".data),
     exeParent.map (· ++ "/../node_modules/tsx/dist/cli.js".data)]

/-- `resolve_dev_entry` (lines 592-603): the development entry source
file at the two workspace-convention locations. -/
def resolveDevEntry (fs : List Char → Bool) (cwd : Option (List Char)) :
    Option (List Char) :=
  firstExisting fs
    [cwd.map (· ++ "/packages/server/src/index.ts".data),
     cwd.map (· ++ "/../server/src/index.ts".data)]

/-- The candidate built-artifact paths of `resolve_dist_entry`
(lines 605-641): workspace-relative `dist` paths from `base`
(= `workspace_root()`), then bundle `Resources` paths and Linux
installed-library roots relative to the executable's directory. -/
def distCandidates (base exeParent : Option (List Char)) : List (Option (List Char)) :=
  [base.map (· ++ "/packages/server/dist/bin.js".data),
   base.map (· ++ "/packages/server/dist/index.js".data),
   base.map (· ++ "/server/dist/bin.js".data),
   base.map (· ++ "/server/dist/index.js".data)] ++
  (match exeParent with
   | none => []
   | some dir =>
     let suffixes : List (List Char) :=
       ["/server/dist/bin.js".data, "/server/dist/index.js".data,
        "/server/dist/server/bin.js".data, "/server/dist/server/index.js".data,
        "/resources/server/dist/bin.js".data, "/resources/server/dist/index.js".data,
        "/resources/server/dist/server/bin.js".data, "/resources/server/dist/server/index.js".data]
     let roots : List (List Char) :=
       [dir ++ "/../Resources".data, dir ++ "/../lib/CodeNomad".data, dir ++ "/../lib/codenomad".data]
     (roots.flatMap (fun r => suffixes.map (fun sfx => r ++ sfx))).map some)

/-- `resolve_dist_entry` (lines 605-641). -/
def resolveDistEntry (fs : List Char → Bool) (base exeParent : Option (List Char)) :
    Option (List Char) :=
  firstExisting fs (distCandidates base exeParent)

/-- `CliEntry::resolve` (lines 516-545): in development mode, prefer the
tsx runner plus development entry when **both** are found; otherwise the
first existing built artifact; otherwise the `ResolutionError` asking
the user to build the CLI.  `nodeBinary` models the `NODE_BINARY`
environment lookup with its `node` default. -/
def cliEntryResolve (fs : List Char → Bool) (nodeBinary : List Char)
    (cwd exeParent base : Option (List Char)) (dev : Bool) :
    Except (List Char) CliEntrySt :=
  match (if dev then
          match resolveTsx fs cwd exeParent, resolveDevEntry fs cwd with
          | some tsxPath, some entry =>
            some (CliEntrySt.mk entry Runner.Tsx (some tsxPath) nodeBinary)
          | _, _ => none
         else none) with
  | some r => Except.ok r
  | none =>
    match resolveDistEntry fs base exeParent with
    | some entry => Except.ok (CliEntrySt.mk entry Runner.Node none nodeBinary)
    | none =>
      Except.error
        "Unable to locate CodeNomad CLI build (dist/bin.js). Please build @neuralnomads/codenomad.".data

/-- The line of §8 of the spec carrying the `port_regex` readiness
signal. -/
def portLine : List Char := "CodeNomad Server is ready at http://127.0.0.1:4821".data

/-- The line of §8 of the spec with a trailing `:5050` port token. -/
def httpLine : List Char := "HTTP server listening on :5050".data

/-- The JSON readiness line of §8 of the spec. -/
def jsonLine : List Char := "\x7b\"msg\":\"http server listening\",\"port\":6000\x7d".data

/-- The state right after `start`: `Starting`, readiness not yet
declared. -/
def startState : SupState := applyStart initState

/-- Reduce one monitor iteration on a line whose extraction succeeds. -/
theorem stepLine_of_signal (s : SupState) (buffer : List Char) (p : Nat)
    (h2 : s.ready = false) (hs : lineSignal (trimEndList buffer) = some p)
    (hne : trimEndList buffer ≠ []) :
    stepLine s buffer = applyMarkReady s p := by
  unfold stepLine
  rw [if_neg hne, if_neg (by simp [h2]), hs]

/-- Reduce one monitor iteration on a non-empty line whose extraction
fails. -/
theorem stepLine_of_no_signal (s : SupState) (buffer : List Char)
    (hs : lineSignal (trimEndList buffer) = none) :
    stepLine s buffer = s := by
  unfold stepLine
  by_cases hne : trimEndList buffer = []
  · rw [if_pos hne]
  · rw [if_neg hne, hs]
    by_cases hr : s.ready = true
    · rw [if_pos hr]
    · rw [if_neg hr]

/-- C5: in the `Starting` state with readiness not yet declared,
processing `CodeNomad Server is ready at http://127.0.0.1:4821`
transitions status to `Ready` with `port == 4821` and
`url == "http://127.0.0.1:4821"`. -/
theorem ready_line_marks_ready (s : SupState)
    (h1 : s.status.state = CliState.Starting) (h2 : s.ready = false) :
    (stepLine s portLine).status.state = CliState.Ready ∧
    (stepLine s portLine).status.port = some 4821 ∧
    (stepLine s portLine).status.url = some "http://127.0.0.1:4821".data := by
  rw [stepLine_of_signal s portLine 4821 h2 (by decide) (by decide)]
  refine ⟨rfl, rfl, ?_⟩
  show some (urlFor 4821) = _
  decide

/-- C5 witness: the concrete post-`start` state satisfies the
hypotheses, and the monitor line sends it to `Ready` on port 4821. -/
theorem ready_line_marks_ready_witness :
    startState.status.state = CliState.Starting ∧ startState.ready = false ∧
    ((stepLine startState portLine).status.state = CliState.Ready ∧
     (stepLine startState portLine).status.port = some 4821 ∧
     (stepLine startState portLine).status.url = some "http://127.0.0.1:4821".data) :=
  ⟨rfl, rfl, ready_line_marks_ready startState rfl rfl⟩

/-- C6: in the `Starting` state with readiness not yet declared,
processing the JSON line `{"msg":"http server listening","port":6000}`
transitions status to `Ready` with `port == 6000`. -/
theorem json_line_marks_ready (s : SupState)
    (h1 : s.status.state = CliState.Starting) (h2 : s.ready = false) :
    (stepLine s jsonLine).status.state = CliState.Ready ∧
    (stepLine s jsonLine).status.port = some 6000 := by
  rw [stepLine_of_signal s jsonLine 6000 h2 (by decide) (by decide)]
  exact ⟨rfl, rfl⟩

/-- C6 witness: the concrete post-`start` state satisfies the
hypotheses, and the JSON line sends it to `Ready` on port 6000. -/
theorem json_line_marks_ready_witness :
    startState.status.state = CliState.Starting ∧ startState.ready = false ∧
    ((stepLine startState jsonLine).status.state = CliState.Ready ∧
     (stepLine startState jsonLine).status.port = some 6000) :=
  ⟨rfl, rfl, json_line_marks_ready startState rfl rfl⟩

/-- C2: the code never recognizes `HTTP server listening on :5050`.
`Regex::new(r":(\d{2,5})(?!.*:\d)")` fails to compile (the `regex`
crate rejects look-ahead), `.ok()` turns the failure into `None`, and
the line is not valid JSON, so `lineSignal` yields nothing and the
monitor leaves the `Starting` status unchanged — against both the claim
and the evident intent of the regex at line 413. -/
theorem http_listening_line_ignored :
    lineSignal httpLine = none ∧
    stepLine startState httpLine = startState ∧
    startState.status.state = CliState.Starting := by
  refine ⟨by decide, ?_, rfl⟩
  exact stepLine_of_no_signal startState httpLine (by decide)

/-- C8: `stop` always returns `Ok`, and unconditionally leaves the
status at `Stopped` with `pid`, `port`, `url` and `error` all cleared
and the child slot empty (so a second call finds no child and changes
nothing further). -/
theorem stop_resets_status (s : SupState) :
    (stopCall s).2 = Except.ok () ∧
    (stopCall s).1.status = ⟨CliState.Stopped, none, none, none, none⟩ ∧
    (stopCall s).1.child = false :=
  ⟨rfl, rfl, rfl⟩

/-- C4 counterexample: `;` is special to a POSIX shell, yet
`shell_escape` passes the token `;` through unescaped, because its
special-character test covers only space, `"`, `'`, `$`, a backquote
and `!` — the claim that no token containing a POSIX-special character
passes through unescaped is false. -/
theorem semicolon_passes_unescaped : shellEscape [';'] = [';'] := by decide

/-- C4 amended: `shell_escape` quotes the empty token as `''`; a token
containing one of exactly space, `"`, `'`, `$`, backquote, `!` is
single-quoted with embedded quotes escaped by the `'\''` idiom; every
other token — including tokens with other POSIX-special characters such
as `;`, `|`, `&`, `*`, parentheses, `<`, `>`, backslash or newline —
passes through unchanged. -/
theorem shell_escape_cases (t : List Char) :
    shellEscape t =
      (if t = [] then ['\'', '\'']
       else if t.any isSpecialChar then '\'' :: (escapeChars t ++ ['\''])
       else t) ∧
    (∀ c : Char, isSpecialChar c = true ↔
      (c = ' ' ∨ c = '"' ∨ c = '\'' ∨ c = '$' ∨ c = '`' ∨ c = '!')) := by
  constructor
  · unfold shellEscape
    by_cases h : t = []
    · rw [if_pos h, if_pos h]
    · rw [if_neg h, if_neg h]
      cases h2 : t.any isSpecialChar <;> simp
  · intro c
    simp [isSpecialChar, or_assoc]

/-- C3 counterexample filesystem: only the development entry source
file exists; the tsx runner script and every built artifact are
missing. -/
def devOnlyFs : List Char → Bool :=
  fun p => p = "/w/packages/server/src/index.ts".data

/-- C3 counterexample: in development mode with a development entry
source present but the tsx runner script absent and no built artifact,
`CliEntry::resolve` fails — the claim that resolution cannot fail while
a development entry exists is false. -/
theorem resolve_fails_with_dev_entry :
    (resolveDevEntry devOnlyFs (some "/w".data)).isSome = true ∧
    (cliEntryResolve devOnlyFs "node".data (some "/w".data) (some "/e".data)
      (some "/b".data) true).isOk = false := by
  constructor <;> decide

/-- C3 amended: resolution succeeds exactly when either a built
artifact exists, or development mode is on and **both** the tsx runner
script and the development entry source are found; it fails (with the
"build the CLI" error) in every other case — in particular a
development entry alone, without the tsx runner, does not prevent
failure when no built artifact exists. -/
theorem resolve_ok_iff (fs : List Char → Bool) (nodeBinary : List Char)
    (cwd exeParent base : Option (List Char)) (dev : Bool) :
    (cliEntryResolve fs nodeBinary cwd exeParent base dev).isOk =
      ((dev && (resolveTsx fs cwd exeParent).isSome &&
        (resolveDevEntry fs cwd).isSome) ||
       (resolveDistEntry fs base exeParent).isSome) := by
  unfold cliEntryResolve
  cases dev
  · cases h3 : resolveDistEntry fs base exeParent <;>
      simp [Except.isOk, Except.toBool]
  · cases h1 : resolveTsx fs cwd exeParent <;>
      cases h2 : resolveDevEntry fs cwd <;>
      cases h3 : resolveDistEntry fs base exeParent <;>
      simp [Except.isOk, Except.toBool]

/-- Parsing the single-quoted body produced by `escapeChars`: the
recognizer consumes the escaped characters and the closing quote,
accumulating exactly the original characters. -/
theorem shellWords_sgl_escape (t : List Char) :
    ∀ rest acc, shellWords QMode.sgl (escapeChars t ++ '\'' :: rest) true acc
      = shellWords QMode.norm rest true (t.reverse ++ acc) := by
  induction t with
  | nil => intro rest acc; rfl
  | cons c cs ih =>
    intro rest acc
    by_cases hc : c = '\''
    · subst hc
      calc shellWords QMode.sgl (escapeChars ('\'' :: cs) ++ '\'' :: rest) true acc
          = shellWords QMode.sgl (escapeChars cs ++ '\'' :: rest) true ('\'' :: acc) := rfl
        _ = shellWords QMode.norm rest true (cs.reverse ++ '\'' :: acc) :=
            ih rest ('\'' :: acc)
        _ = shellWords QMode.norm rest true (('\'' :: cs).reverse ++ acc) := by
            simp [List.reverse_cons, List.append_assoc]
    · calc shellWords QMode.sgl (escapeChars (c :: cs) ++ '\'' :: rest) true acc
          = shellWords QMode.sgl (escapeChars cs ++ '\'' :: rest) true (c :: acc) := by
            simp [escapeChars, shellWords, hc]
        _ = shellWords QMode.norm rest true (cs.reverse ++ c :: acc) :=
            ih rest (c :: acc)
        _ = shellWords QMode.norm rest true ((c :: cs).reverse ++ acc) := by
            simp [List.reverse_cons, List.append_assoc]

/-- C9: escaping any token that contains a single quote, a space and a
dollar sign yields a string that POSIX shell tokenization and quote
removal turn back into exactly the original token, as a single field. -/
theorem shell_escape_roundtrip (t : List Char)
    (h1 : '\'' ∈ t) (h2 : ' ' ∈ t) (h3 : '$' ∈ t) :
    shellSplit (shellEscape t) = some [t] := by
  have hne : t ≠ [] := by
    intro h; subst h; exact absurd h1 (List.not_mem_nil _)
  have hany : t.any isSpecialChar = true :=
    List.any_eq_true.mpr ⟨'\'', h1, by decide⟩
  unfold shellSplit shellEscape
  rw [if_neg hne, if_neg (by simp [hany])]
  rw [show shellWords QMode.norm ('\'' :: (escapeChars t ++ ['\''])) false []
      = shellWords QMode.sgl (escapeChars t ++ '\'' :: []) true [] from rfl]
  rw [shellWords_sgl_escape t [] []]
  simp [shellWords]

/-- C9 witness: the token `a' $b` contains a quote, a space and a
dollar sign, and round-trips through the shell. -/
theorem shell_escape_roundtrip_witness :
    '\'' ∈ "a' $b".data ∧ ' ' ∈ "a' $b".data ∧ '$' ∈ "a' $b".data ∧
    shellSplit (shellEscape "a' $b".data) = some ["a' $b".data] :=
  ⟨by decide, by decide, by decide,
   shell_escape_roundtrip "a' $b".data (by decide) (by decide) (by decide)⟩

/-- The inductive invariant of the supervisor's shared state: `port` and
`url` are populated together; in `Ready` they are populated and `error`
is clear; and a populated `port` implies the ready flag is set and the
state is `Ready`, or `Stopped` through the exit watcher's clean-stop
transition, or `Error` through a timeout update whose flag check went
stale — none of which clears `port`/`url`. -/
def SupInv (s : SupState) : Prop :=
  s.status.port.isSome = s.status.url.isSome ∧
  (s.status.state = CliState.Ready →
    s.status.port.isSome = true ∧ s.status.error = none) ∧
  (s.status.port.isSome = true →
    s.ready = true ∧
    (s.status.state = CliState.Ready ∨
     (s.status.state = CliState.Stopped ∧ s.exited = true) ∨
     s.status.state = CliState.Error))

theorem inv_preserved {s t : SupState} (hs : SupInv s) (st : Step s t) : SupInv t := by
  obtain ⟨h1, h2, h3⟩ := hs
  cases st with
  | start =>
    exact ⟨rfl, fun hr => CliState.noConfusion hr, fun hp => Bool.noConfusion hp⟩
  | spawn pid =>
    exact ⟨h1, h2, h3⟩
  | markReady port h hp =>
    exact ⟨rfl, fun _ => ⟨rfl, rfl⟩, fun _ => ⟨rfl, Or.inl rfl⟩⟩
  | timeoutCheck h =>
    exact ⟨h1, h2, h3⟩
  | timeoutFire h =>
    exact ⟨h1, fun hr => CliState.noConfusion hr,
      fun hp => ⟨(h3 hp).1, Or.inr (Or.inr rfl)⟩⟩
  | exit code h =>
    by_cases hr : s.status.state = CliState.Ready
    · unfold applyExitWatcher
      rw [if_pos hr]
      exact ⟨h1, fun hx => CliState.noConfusion hx,
        fun hp => ⟨(h3 hp).1, Or.inr (Or.inl ⟨rfl, rfl⟩)⟩⟩
    · unfold applyExitWatcher
      rw [if_neg hr]
      exact ⟨h1, fun hx => CliState.noConfusion hx,
        fun hp => ⟨(h3 hp).1, Or.inr (Or.inr rfl)⟩⟩
  | stop =>
    exact ⟨rfl, fun hr => CliState.noConfusion hr, fun hp => Bool.noConfusion hp⟩

theorem inv_reachable {s : SupState} (h : Reachable s) : SupInv s := by
  induction h with
  | init => exact ⟨rfl, fun hr => CliState.noConfusion hr, fun hp => Bool.noConfusion hp⟩
  | step hr st ih => exact inv_preserved ih st

/-- The `Ready` state reached by `start` followed by `mark_ready(4821)`. -/
def readyState : SupState := applyMarkReady (applyStart initState) 4821

theorem readyState_reachable : Reachable readyState :=
  Reachable.step
    (Reachable.step Reachable.init (Step.start initState))
    (Step.markReady (applyStart initState) 4821 rfl (by decide))

/-- The state in which the readiness timer loaded the ready flag as
unset, `mark_ready(4821)` then interleaved, and the timer's
un-re-checked error update fired afterwards. -/
def staleTimerState : SupState :=
  applyTimeout (applyMarkReady { applyStart initState with timerPending := true } 4821)

theorem staleTimerState_reachable : Reachable staleTimerState :=
  Reachable.step
    (Reachable.step
      (Reachable.step
        (Reachable.step Reachable.init (Step.start initState))
        (Step.timeoutCheck (applyStart initState) rfl))
      (Step.markReady { applyStart initState with timerPending := true } 4821 rfl
        (by decide)))
    (Step.timeoutFire
      (applyMarkReady { applyStart initState with timerPending := true } 4821) rfl)

/-- The timer's check-then-act race is observable: because the timer
loads the ready flag (line 349) before acquiring the status lock
(line 352) and never re-checks it, `mark_ready` can interleave between
the two, after which the timer sets `state = Error` while `port` and
`url` remain populated — so even "populated implies Ready or Stopped"
would be false of the program. -/
theorem stale_timer_error_keeps_port :
    Reachable staleTimerState ∧
    staleTimerState.status.state = CliState.Error ∧
    staleTimerState.status.port = some 4821 ∧
    staleTimerState.status.url.isSome = true :=
  ⟨staleTimerState_reachable, by decide, by decide, by decide⟩

/-- C7: when the exit watcher observes termination in a reachable state,
a non-`Ready` state becomes `Error` with the early-exit message recorded
only if no error was already present (an existing error is preserved),
and a `Ready` state becomes `Stopped` with the error field empty. -/
theorem exit_watcher_classification (s : SupState) (code : Option (List Char))
    (h : Reachable s) :
    (s.status.state ≠ CliState.Ready →
      (applyExitWatcher s code).status.state = CliState.Error ∧
      (applyExitWatcher s code).status.error =
        (if s.status.error = none then some (earlyExitMsg code)
         else s.status.error)) ∧
    (s.status.state = CliState.Ready →
      (applyExitWatcher s code).status.state = CliState.Stopped ∧
      (applyExitWatcher s code).status.error = none) := by
  obtain ⟨h1, h2, h3⟩ := inv_reachable h
  constructor
  · intro hne
    unfold applyExitWatcher
    rw [if_neg hne]
    exact ⟨rfl, rfl⟩
  · intro hr
    unfold applyExitWatcher
    rw [if_pos hr]
    exact ⟨rfl, (h2 hr).2⟩

/-- C7 witness: the classification at the reachable `Ready` state: the
watcher sends it to `Stopped` with no error. -/
theorem exit_watcher_classification_witness :
    Reachable readyState ∧
    ((readyState.status.state ≠ CliState.Ready →
      (applyExitWatcher readyState none).status.state = CliState.Error ∧
      (applyExitWatcher readyState none).status.error =
        (if readyState.status.error = none then some (earlyExitMsg none)
         else readyState.status.error)) ∧
     (readyState.status.state = CliState.Ready →
      (applyExitWatcher readyState none).status.state = CliState.Stopped ∧
      (applyExitWatcher readyState none).status.error = none)) :=
  ⟨readyState_reachable,
   exit_watcher_classification readyState none readyState_reachable⟩


theorem parseJStr_lit (s rest : List Char)
    (h : s.all (fun c => !(c = '"') && !(c = '\\')) = true) :
    parseJStr (s ++ '"' :: rest) = some (s, rest) := by
  induction s with
  | nil => rfl
  | cons c cs ih =>
    rw [List.all_cons, Bool.and_eq_true] at h
    obtain ⟨hc, hcs⟩ := h
    have hc1 : ¬ c = '"' := by
      intro hx; rw [hx] at hc; exact absurd hc (by decide)
    have hc2 : ¬ c = '\\' := by
      intro hx; rw [hx] at hc; exact absurd hc (by decide)
    show (if c = '"' then some ([], cs ++ '"' :: rest)
          else if c = '\\' then none
          else (parseJStr (cs ++ '"' :: rest)).map (fun p => (c :: p.1, p.2)))
        = some (c :: cs, rest)
    rw [if_neg hc1, if_neg hc2, ih hcs]
    rfl

